import Mathlib

/-
Verification of the DeepSeek provider handlers of this repository.

The development embeds, as executable Lean definitions, the pure content of:
  * `src/src/api/providers/deepseek.ts` (class `DeepSeekHandler`: a
    non-streaming handler built on one POST; content extraction, usage
    normalization, constructor CA-bundle resolution, completePrompt);
  * the streaming `DeepSeekHandler` variant embedded in
    `src/src/__tests__/providers/deepseek.test.ts` (SSE line parsing with a
    `data: ` frame marker, a `[DONE]` sentinel, per-frame JSON decoding, and
    an end-of-stream whole-buffer parse of the residual bytes);
  * the whole-document `DeepSeekHandler` variant in `src/unnamed/part_000`
    (single JSON document, content-first extraction, error object handling).

External effects (HTTP transport, the vscode output channel, JSON.parse) are
modelled as parameters: the transport outcome is a value of `TransportResult`,
and JSON decoding is an explicit `List Char → Option RespBody` oracle.
JavaScript nullish coalescing (`??`) is `Option.orElse`; JavaScript truthiness
of a string is the test against the empty string.
-/

namespace RooDeepSeek

/-- Decoded shape of `choices[i].delta` as probed by the handlers. -/
structure Delta where
  content : Option String := none
  deriving DecidableEq

/-- Decoded shape of `choices[i].message` as probed by the handlers. -/
structure MessageObj where
  content : Option String := none
  deriving DecidableEq

/-- Decoded shape of one element of `choices`. -/
structure Choice where
  delta : Option Delta := none
  message : Option MessageObj := none
  text : Option String := none
  deriving DecidableEq

/-- Decoded shape of `usage.prompt_tokens_details`. -/
structure UsageDetails where
  cache_miss_tokens : Option Nat := none
  cached_tokens : Option Nat := none
  deriving DecidableEq

/-- Decoded shape of the `usage` (or `metrics`) object of a response. -/
structure UsageObj where
  prompt_tokens : Option Nat := none
  input_tokens : Option Nat := none
  completion_tokens : Option Nat := none
  output_tokens : Option Nat := none
  prompt_tokens_details : Option UsageDetails := none
  cache_creation_input_tokens : Option Nat := none
  cache_read_input_tokens : Option Nat := none
  deriving DecidableEq

/-- Decoded shape of the `error` object of a response. -/
structure ErrorObj where
  message : Option String := none
  deriving DecidableEq

/-- Decoded shape of one element of `output`. -/
structure OutputItem where
  content : Option String := none
  deriving DecidableEq

/-- Decoded JSON document: every location any of the handlers probes. -/
structure RespBody where
  choices : List Choice := []
  result : Option String := none
  output : List OutputItem := []
  usage : Option UsageObj := none
  metrics : Option UsageObj := none
  error : Option ErrorObj := none
  deriving DecidableEq

/-- `deepseek.ts` lines 174-179 and 244-249: content extraction
`respBody?.choices?.[0]?.message?.content ?? respBody?.choices?.[0]?.text
?? respBody?.result ?? respBody?.output?.[0]?.content ?? ""`.
The same expression is used by `createMessage` and by `completePrompt`. -/
def extractContent (b : RespBody) : String :=
  ((b.choices.head?.bind fun c => c.message.bind fun m => m.content) <|>
   (b.choices.head?.bind fun c => c.text) <|>
   b.result <|>
   (b.output.head?.bind fun o => o.content)).getD ""

/-- `deepseek.ts` line 181: `respBody?.usage ?? respBody?.metrics ?? undefined`. -/
def usageOf (b : RespBody) : Option UsageObj :=
  b.usage <|> b.metrics

/-- The normalized usage chunk shape (`ApiStreamUsageChunk`). -/
structure ApiStreamUsageChunk where
  inputTokens : Nat
  outputTokens : Nat
  cacheWriteTokens : Option Nat
  cacheReadTokens : Option Nat
  deriving DecidableEq

/-- `deepseek.ts` lines 272-281: `DeepSeekHandler.processUsageMetrics`,
accepting the synonymous spellings `prompt_tokens`/`input_tokens`,
`completion_tokens`/`output_tokens`,
`prompt_tokens_details.cache_miss_tokens`/`cache_creation_input_tokens`
and `prompt_tokens_details.cached_tokens`/`cache_read_input_tokens`. -/
def processUsageMetrics (u : UsageObj) : ApiStreamUsageChunk :=
  { inputTokens := (u.prompt_tokens <|> u.input_tokens).getD 0
    outputTokens := (u.completion_tokens <|> u.output_tokens).getD 0
    cacheWriteTokens :=
      (u.prompt_tokens_details.bind fun d => d.cache_miss_tokens) <|>
        u.cache_creation_input_tokens
    cacheReadTokens :=
      (u.prompt_tokens_details.bind fun d => d.cached_tokens) <|>
        u.cache_read_input_tokens }

/-- `src/unnamed/part_001` lines 236-244: `OpenAiHandler.processUsageMetrics`.
This normalizer reads only `prompt_tokens || 0`, `completion_tokens || 0`,
`cache_creation_input_tokens || undefined` and
`cache_read_input_tokens || undefined` — one spelling per field, with
JavaScript truthy-or semantics (a zero cache counter collapses to
`undefined`). -/
def openAiProcessUsageMetrics (u : UsageObj) : ApiStreamUsageChunk :=
  { inputTokens := u.prompt_tokens.getD 0
    outputTokens := u.completion_tokens.getD 0
    cacheWriteTokens :=
      u.cache_creation_input_tokens.bind fun n => if n = 0 then none else some n
    cacheReadTokens :=
      u.cache_read_input_tokens.bind fun n => if n = 0 then none else some n }

/-- Chunks yielded by the `ApiStream` generator of `deepseek.ts`. -/
inductive ApiChunk where
  | text (s : String)
  | usage (u : ApiStreamUsageChunk)
  deriving DecidableEq

/-- Outcome of the POST performed by the transport (axios): a decoded body on
a 2xx response, or a thrown failure (connection error or non-2xx status). -/
inductive TransportResult where
  | ok (body : RespBody)
  | err (msg : String)

/-- `deepseek.ts` lines 152-216: `DeepSeekHandler.createMessage` after the
POST. On success it yields one text chunk holding the extracted content and,
when a usage (or metrics) object is present, one normalized usage chunk; on a
transport failure it rethrows. -/
def createMessage (r : TransportResult) : Except String (List ApiChunk) :=
  match r with
  | TransportResult.err m => Except.error m
  | TransportResult.ok b =>
      Except.ok (ApiChunk.text (extractContent b) ::
        (match usageOf b with
         | some u => [ApiChunk.usage (processUsageMetrics u)]
         | none => []))

/-- `deepseek.ts` lines 222-257: `DeepSeekHandler.completePrompt`. Returns the
extracted content of the response; wraps a thrown failure. -/
def completePrompt (r : TransportResult) : Except String String :=
  match r with
  | TransportResult.ok b => Except.ok (extractContent b)
  | TransportResult.err m => Except.error ("Deepseek completion error: " ++ m)

/-- The normalized stream event view of one `createMessage` call: the chunks
it yields, then the terminal condition (normal generator completion = `done`,
a thrown failure = `error`). -/
inductive StreamEvent where
  | content (s : String)
  | usage (u : ApiStreamUsageChunk)
  | done
  | error (m : String)
  deriving DecidableEq

/-- The full event sequence one `createMessage` call presents to its caller:
each yielded chunk in order, closed by exactly the terminal its control flow
produces. -/
def createMessageTrace (r : TransportResult) : List StreamEvent :=
  match createMessage r with
  | Except.error m => [StreamEvent.error m]
  | Except.ok evs =>
      evs.map (fun e =>
        match e with
        | ApiChunk.text s => StreamEvent.content s
        | ApiChunk.usage u => StreamEvent.usage u) ++ [StreamEvent.done]

/-- Terminal events of a stream: `done` or `error`. -/
def isTerminal : StreamEvent → Bool
  | StreamEvent.done => true
  | StreamEvent.error _ => true
  | _ => false

/-- Content events of a stream. -/
def isContent : StreamEvent → Bool
  | StreamEvent.content _ => true
  | _ => false

/-- Usage events of a stream. -/
def isUsage : StreamEvent → Bool
  | StreamEvent.usage _ => true
  | _ => false

/-- `src/unnamed/part_000` lines 128-137: the content test
`json.choices && json.choices.length > 0 && choice.message &&
choice.message.content` (JavaScript truthiness: the content must be a
non-empty string). -/
def part000Content? (b : RespBody) : Option String :=
  b.choices.head?.bind fun c =>
    c.message.bind fun m =>
      m.content.bind fun s => if s = "" then none else some s

/-- Failure kinds of the `part_000` createMessage, after the surrounding
catch block wraps them in `Failed to parse API response: ...`:
the whole-document JSON.parse threw, the body carried an explicit
`error.message`, or no valid content was found. -/
inductive Part000Error where
  | parseFailure
  | apiError (msg : String)
  | noContent
  deriving DecidableEq

/-- `src/unnamed/part_000` lines 122-148: the whole-document variant of
`DeepSeekHandler.createMessage`. The full response text is parsed once; a
truthy `choices[0].message.content` yields a single content chunk and
returns; otherwise a truthy `error.message` throws, and failing that a
no-content failure is thrown. `decode` is the JSON.parse oracle. -/
def part000CreateMessage (decode : List Char → Option RespBody)
    (buffer : List Char) : Except Part000Error (List ApiChunk) :=
  match decode buffer with
  | none => Except.error Part000Error.parseFailure
  | some j =>
      match part000Content? j with
      | some s => Except.ok [ApiChunk.text s]
      | none =>
          match j.error.bind fun e => e.message with
          | some m =>
              if m = "" then Except.error Part000Error.noContent
              else Except.error (Part000Error.apiError m)
          | none => Except.error Part000Error.noContent

/-- The extraction rule exactly as the specification states it, written for
comparison with `extractContent`: try `choices[0].delta.content`, then
`choices[0].message.content`, then `choices[0].text`, in that order; the
first non-empty match is the fragment, and if none is present no fragment is
produced. -/
def specExtractContent (b : RespBody) : Option String :=
  (((b.choices.head?.bind fun c => c.delta.bind fun d => d.content).bind
      fun s => if s = "" then none else some s) <|>
   ((b.choices.head?.bind fun c => c.message.bind fun m => m.content).bind
      fun s => if s = "" then none else some s) <|>
   ((b.choices.head?.bind fun c => c.text).bind
      fun s => if s = "" then none else some s))

/-
Streaming variant from `src/src/__tests__/providers/deepseek.test.ts`
(second embedded document, lines 136-201): the response bytes arrive in
chunks; each data event appends the chunk to a buffer and repeatedly extracts
the text before the next newline; a line starting with `data: ` is a frame
whose payload is either the `[DONE]` sentinel (resolve and return from the
current data callback, leaving the rest of the buffer untouched) or JSON
holding an optional `choices[0].delta.content` fragment; a payload that fails
to decode is logged and skipped. On stream end, a non-empty residual buffer
is parsed once as a whole JSON document with the same fragment extraction.
Resolving the promise does not detach the data listener, so chunks arriving
after the sentinel are still processed.
-/

/-- The `data: ` frame marker (6 characters). -/
def dataTag : List Char := ['d', 'a', 't', 'a', ':', ' ']

/-- The `[DONE]` sentinel payload. -/
def doneLit : List Char := ['[', 'D', 'O', 'N', 'E', ']']

/-- A complete sentinel frame line. -/
def doneLine : List Char := dataTag ++ doneLit

/-- Events the streaming variant reports through `onProgress`:
`{ type: "content", content }` chunks. -/
inductive SseEvent where
  | content (s : String)
  deriving DecidableEq

/-- Fragment extraction of the streaming variant (test file lines 162-168 and
179-184): a decoded document contributes one content event when
`json.choices && json.choices.length > 0 && json.choices[0].delta?.content`
is truthy. `decode` is the JSON.parse oracle; a decode failure is dropped. -/
def frameEvents (decode : List Char → Option RespBody) (p : List Char) :
    List SseEvent :=
  match decode p with
  | none => []
  | some j =>
      match j.choices.head? with
      | none => []
      | some c =>
          match c.delta with
          | none => []
          | some d =>
              match d.content with
              | none => []
              | some s => if s = "" then [] else [SseEvent.content s]

/-- Split a character buffer at every newline: the list of complete lines
(text before each newline, in order) and the trailing residual after the last
newline. This is the repeated `buffer.indexOf('\n')` extraction of the data
handler. -/
def splitNewlines : List Char → List (List Char) × List Char
  | [] => ([], [])
  | c :: cs =>
      if c = '\n' then
        ([] :: (splitNewlines cs).1, (splitNewlines cs).2)
      else
        match (splitNewlines cs).1 with
        | [] => ([], c :: (splitNewlines cs).2)
        | l :: ls => ((c :: l) :: ls, (splitNewlines cs).2)

/-- The while loop of the data handler over the extracted complete lines:
a non-`data: ` line is discarded; a `[DONE]` payload returns from the
handler, reporting the lines after it as not yet consumed (`some rest`);
any other payload contributes its fragment events and the loop continues. -/
def processLines (decode : List Char → Option RespBody) :
    List (List Char) → List SseEvent × Option (List (List Char))
  | [] => ([], none)
  | l :: ls =>
      if l.take 6 = dataTag then
        if l.drop 6 = doneLit then ([], some ls)
        else
          ((frameEvents decode (l.drop 6)) ++ (processLines decode ls).1,
            (processLines decode ls).2)
      else processLines decode ls

/-- Rebuild the buffer text of a list of still newline-terminated lines
followed by the residual: the bytes left in the buffer when the data handler
returns early at a `[DONE]` frame. -/
def rejoin (ls : List (List Char)) (r : List Char) : List Char :=
  (ls.map fun l => l ++ ['\n']).flatten ++ r

/-- One `res.on('data')` callback: append the chunk to the buffer, extract
and process complete lines, and return the emitted events together with the
new buffer contents. -/
def feedChunk (decode : List Char → Option RespBody)
    (buffer chunk : List Char) : List SseEvent × List Char :=
  match processLines decode (splitNewlines (buffer ++ chunk)).1 with
  | (es, none) => (es, (splitNewlines (buffer ++ chunk)).2)
  | (es, some rest) => (es, rejoin rest (splitNewlines (buffer ++ chunk)).2)

/-- Feed every chunk of the response in order, threading the buffer. -/
def feedAll (decode : List Char → Option RespBody) :
    List Char → List (List Char) → List SseEvent × List Char
  | buf, [] => ([], buf)
  | buf, c :: cs =>
      ((feedChunk decode buf c).1 ++
          (feedAll decode (feedChunk decode buf c).2 cs).1,
        (feedAll decode (feedChunk decode buf c).2 cs).2)

/-- The `res.on('end')` callback (test file lines 176-191): when the residual
buffer is non-empty, parse it once as a whole JSON document and extract a
fragment with the same rule; a decode failure is logged and dropped. -/
def endEvents (decode : List Char → Option RespBody) (buf : List Char) :
    List SseEvent :=
  if buf = [] then [] else frameEvents decode buf

/-- The complete event sequence one streaming `createMessage` call reports
through `onProgress` for a response delivered as the given chunks. -/
def runStream (decode : List Char → Option RespBody)
    (chunks : List (List Char)) : List SseEvent :=
  (feedAll decode [] chunks).1 ++ endEvents decode (feedAll decode [] chunks).2

/-- Instrumentation of the end-of-stream whole-document parse: the parse is
attempted exactly when the residual buffer is non-empty when the stream ends. -/
def fallbackAttempted (decode : List Char → Option RespBody)
    (chunks : List (List Char)) : Bool :=
  !(feedAll decode [] chunks).2.isEmpty

/-- Role of a conversation turn handed to the R1 formatter. The handlers call
`convertToR1Format([{ role: "user", content: systemPrompt }, ...messages])`
where `messages` are Anthropic message params, whose role is `user` or
`assistant`. -/
inductive Role where
  | user
  | assistant
  deriving DecidableEq

/-- One conversation turn as seen by the R1 formatter. -/
structure RMsg where
  role : Role
  content : String
  deriving DecidableEq

/-- Modelled from the spec: `convertToR1Format` lives in
`src/api/transform/r1-format.ts`, which is not among the provided sources;
spec section 4.1 states that R1 mode merges runs of consecutive same-role
turns into one message each by concatenating their content with a single
newline. This merges each turn into the following run. -/
def mergeRuns : List RMsg → List RMsg
  | [] => []
  | m :: ms =>
      match mergeRuns ms with
      | [] => [m]
      | m2 :: rest =>
          if m.role = m2.role then
            { role := m.role, content := m.content ++ "\n" ++ m2.content } :: rest
          else m :: m2 :: rest

/-- Modelled from the spec: R1-mode formatting (spec section 4.1) merges
same-role runs and, if the merged sequence does not start with `user`,
inserts a placeholder user turn with minimal content to satisfy the
alternation requirement of the provider. -/
def convertToR1Format (msgs : List RMsg) : List RMsg :=
  match mergeRuns msgs with
  | [] => []
  | m :: rest =>
      if m.role = Role.user then m :: rest
      else { role := Role.user, content := "" } :: m :: rest

/-- The runs of consecutive same-role turns of a history, in order. -/
def roleRuns : List RMsg → List (List RMsg)
  | [] => []
  | m :: ms =>
      match roleRuns ms with
      | [] => [[m]]
      | run :: rest =>
          match run with
          | [] => [m] :: rest
          | m2 :: _ =>
              if m.role = m2.role then (m :: run) :: rest
              else [m] :: run :: rest

/-- Join a list of strings with single newline separators. -/
def nlJoin : List String → String
  | [] => ""
  | [s] => s
  | s :: s2 :: rest => s ++ "\n" ++ nlJoin (s2 :: rest)

/-- The single message a run of same-role turns merges into: the role of the
run and the newline-joined contents. -/
def mergeRun : List RMsg → RMsg
  | [] => { role := Role.user, content := "" }
  | m :: rest =>
      { role := m.role, content := nlJoin (m.content :: rest.map fun x => x.content) }

/-
Constructor of `DeepSeekHandler` in `deepseek.ts` (lines 66-98): resolve the
CA bundle path from the options (tolerant of both option spellings) with a
built-in default; when the resolved path is truthy, a missing file throws so
the misconfiguration surfaces early, and an existing file is installed as
`NODE_EXTRA_CA_CERTS`. The filesystem is the `fsExists` oracle
(`fs.existsSync`).
-/

/-- `deepseek.ts` line 15. -/
def DEFAULT_CA_BUNDLE_PATH : String :=
  "C:\\Users\\45168789\\Documents\\combined_certificates.crt"

/-- `deepseek.ts` line 16. -/
def DEFAULT_URL : String :=
  "http://hk120164337.hc.cloud.hk.hsbc:12214/v1/chat/completions"

/-- `deepseek.ts` line 17. -/
def DEFAULT_MODEL : String := "o3-2025-04-16"

/-- The fields of `ApiHandlerOptions` the constructor reads (both casing
conventions of the CA bundle and base URL options). -/
structure HandlerOptions where
  deepSeekCaBundlePath : Option String := none
  deepseekCaBundlePath : Option String := none
  deepSeekBaseUrl : Option String := none
  deepseekBaseUrl : Option String := none
  apiModelId : Option String := none
  deriving DecidableEq

/-- `deepseek.ts` line 72: `(options.deepSeekCaBundlePath) ??
(options.deepseekCaBundlePath) ?? DEFAULT_CA_BUNDLE_PATH`. -/
def resolveCaPath (o : HandlerOptions) : String :=
  ((o.deepSeekCaBundlePath) <|> (o.deepseekCaBundlePath)).getD DEFAULT_CA_BUNDLE_PATH

/-- The state a successfully constructed handler holds: the resolved
configuration and the trust configuration installed in the environment. -/
structure ConstructedHandler where
  caBundlePath : String
  baseUrl : String
  modelId : String
  nodeExtraCaCerts : Option String
  deriving DecidableEq

/-- `deepseek.ts` lines 66-98: the constructor. A truthy resolved CA path
whose file does not exist throws; a truthy existing path is installed as
`NODE_EXTRA_CA_CERTS`; a falsy (empty) path skips the check entirely. -/
def constructDeepSeekHandler (fsExists : String → Bool)
    (o : HandlerOptions) : Except String ConstructedHandler :=
  let path := resolveCaPath o
  let base := ((o.deepSeekBaseUrl) <|> (o.deepseekBaseUrl)).getD DEFAULT_URL
  let modelId := (o.apiModelId).getD DEFAULT_MODEL
  if path = "" then
    Except.ok { caBundlePath := path, baseUrl := base, modelId := modelId,
                nodeExtraCaCerts := none }
  else if fsExists path then
    Except.ok { caBundlePath := path, baseUrl := base, modelId := modelId,
                nodeExtraCaCerts := some path }
  else Except.error ("CA bundle not found at " ++ path)

/-
Concrete fixtures used by the counterexamples and witnesses. The JSON texts
are written with `\x7b` and `\x7d` for the braces; the decode oracles map
exactly these texts to their decoded documents, matching what JSON.parse
returns on them, and fail on everything else.
-/

/-- The text `{"choices":[{"delta":{"content":"hi"}}]}`. -/
def jsonHi : List Char :=
  "\x7b\"choices\":[\x7b\"delta\":\x7b\"content\":\"hi\"\x7d\x7d]\x7d".data

/-- The decoded document of `jsonHi`. -/
def docHi : RespBody :=
  { choices := [{ delta := some { content := some "hi" } }] }

/-- JSON.parse oracle for the streaming fixtures: decodes `jsonHi`, fails on
every other text. -/
def decodeFix : List Char → Option RespBody :=
  fun cs => if cs = jsonHi then some docHi else none

/-- The text `{}`. -/
def jsonEmptyObj : List Char := "\x7b\x7d".data

/-- The decoded document of `jsonEmptyObj`: no content at any location, no
usage, no error object. -/
def emptyBody : RespBody := {}

/-- JSON.parse oracle decoding only the empty object. -/
def decodeEmpty : List Char → Option RespBody :=
  fun cs => if cs = jsonEmptyObj then some emptyBody else none

/-- A document carrying both a populated `choices[0].delta.content` and a
populated `choices[0].text`, to separate the extraction orders. -/
def deltaTextDoc : RespBody :=
  { choices := [{ delta := some { content := some "A" }, text := some "B" }] }

/-- The text `{"choices":[{"message":{"content":"hi"}}],"error":{"message":"bad key"}}`. -/
def jsonContentAndError : List Char :=
  ("\x7b\"choices\":[\x7b\"message\":\x7b\"content\":\"hi\"\x7d\x7d]," ++
   "\"error\":\x7b\"message\":\"bad key\"\x7d\x7d").data

/-- The decoded document of `jsonContentAndError`. -/
def contentAndErrorDoc : RespBody :=
  { choices := [{ message := some { content := some "hi" } }],
    error := some { message := some "bad key" } }

/-- The text `{"error":{"message":"bad key"}}` (spec Scenario E). -/
def jsonErrorOnly : List Char :=
  "\x7b\"error\":\x7b\"message\":\"bad key\"\x7d\x7d".data

/-- The decoded document of `jsonErrorOnly`. -/
def errorOnlyDoc : RespBody :=
  { error := some { message := some "bad key" } }

/-- JSON.parse oracle for the part_000 fixtures. -/
def decodeErr : List Char → Option RespBody :=
  fun cs =>
    if cs = jsonContentAndError then some contentAndErrorDoc
    else if cs = jsonErrorOnly then some errorOnlyDoc
    else none

/-- A single chunk delivering the sentinel frame followed by a raw JSON
document with no `data: ` framing and no trailing newline:
`data: [DONE]\n{"choices":[{"delta":{"content":"hi"}}]}`. -/
def sentinelThenJson : List Char := doneLine ++ '\n' :: jsonHi

/-- A chunk holding one newline-terminated line without the `data: ` marker. -/
def nonFrameChunk : List Char := ['x', '\n']

/-- A well-formed content frame line for the streaming fixtures:
`data: {"choices":[{"delta":{"content":"hi"}}]}`. -/
def goodLine : List Char := dataTag ++ jsonHi

/-
Theorems.
-/

/-- Splitting a buffer that starts with one newline-free complete line peels
exactly that line off. -/
theorem splitNewlines_append (l rest : List Char) (h : '\n' ∉ l) :
    splitNewlines (l ++ '\n' :: rest) =
      (l :: (splitNewlines rest).1, (splitNewlines rest).2) := by
  induction l with
  | nil => simp [splitNewlines]
  | cons c cs ih =>
      have hc : ¬ c = '\n' := fun hh => h (List.mem_cons.mpr (Or.inl hh.symm))
      have hcs : '\n' ∉ cs := fun hh => h (List.mem_cons_of_mem c hh)
      simp [splitNewlines, hc, ih hcs]

/-- Feeding a concatenation of chunk lists feeds the first list, then the
second from the resulting buffer. -/
theorem feedAll_append (d : List Char → Option RespBody) (buf : List Char)
    (xs ys : List (List Char)) :
    feedAll d buf (xs ++ ys) =
      ((feedAll d buf xs).1 ++ (feedAll d (feedAll d buf xs).2 ys).1,
        (feedAll d (feedAll d buf xs).2 ys).2) := by
  induction xs generalizing buf with
  | nil => simp [feedAll]
  | cons c cs ih => simp [feedAll, ih]

/-- A line list without the sentinel frame is processed to completion: the
data handler does not return early. -/
theorem processLines_no_done (d : List Char → Option RespBody)
    (ls : List (List Char)) :
    (∀ l ∈ ls, l ≠ doneLine) → (processLines d ls).2 = none := by
  induction ls with
  | nil => intro h; rfl
  | cons l ls ih =>
      intro h
      have hl : l ≠ doneLine := h l (List.mem_cons_self l ls)
      have hls : ∀ x ∈ ls, x ≠ doneLine :=
        fun x hx => h x (List.mem_cons_of_mem l hx)
      by_cases h1 : l.take 6 = dataTag
      · by_cases h2 : l.drop 6 = doneLit
        · have h3 := List.take_append_drop 6 l
          rw [h1, h2] at h3
          exact absurd h3.symm hl
        · simp [processLines, h1, h2, ih hls]
      · simp [processLines, h1, ih hls]

/-- Feeding one newline-terminated line into an empty buffer leaves the
buffer empty, whether the line is a frame, the sentinel, or noise. -/
theorem feedChunk_line_empty (d : List Char → Option RespBody)
    (l : List Char) (h : '\n' ∉ l) :
    (feedChunk d [] (l ++ ['\n'])).2 = [] := by
  have hs : splitNewlines (l ++ ['\n']) = ([l], []) := by
    have h2 := splitNewlines_append l [] h
    simpa [splitNewlines] using h2
  by_cases h1 : l.take 6 = dataTag
  · by_cases h2 : l.drop 6 = doneLit
    · simp [feedChunk, hs, processLines, h1, h2, rejoin]
    · simp [feedChunk, hs, processLines, h1, h2]
  · simp [feedChunk, hs, processLines, h1]

/-- Feeding any list of newline-terminated single lines keeps the buffer
empty throughout and leaves it empty at end of stream. -/
theorem feedAll_lines_empty (d : List Char → Option RespBody)
    (ls : List (List Char)) :
    (∀ l ∈ ls, '\n' ∉ l) →
    (feedAll d [] (ls.map fun l => l ++ ['\n'])).2 = [] := by
  induction ls with
  | nil => intro h; rfl
  | cons l ls ih =>
      intro h
      have h1 : '\n' ∉ l := h l (List.mem_cons_self l ls)
      have h2 : ∀ x ∈ ls, '\n' ∉ x := fun x hx => h x (List.mem_cons_of_mem l hx)
      simp only [List.map_cons, feedAll]
      rw [feedChunk_line_empty d l h1]
      exact ih h2

/-- Claim C2, counterexample: a byte stream delivering the sentinel frame
`data: [DONE]` followed by further bytes (a raw JSON document left in the
buffer) still emits a Content event from those extra bytes: the residual
buffer is parsed by the end-of-stream handler after the sentinel was
consumed, so the stream does not terminate immediately at the sentinel. -/
theorem c2_counterexample :
    runStream decodeFix [sentinelThenJson] = [SseEvent.content "hi"] := rfl

/-- Claim C2, amended: within one data callback, a `[DONE]` payload stops
line-wise parsing without failing — no event is produced from the frames
after the sentinel in that feed and they are left unconsumed — but the
unconsumed bytes are not discarded: frames delivered in later chunks are
still parsed normally and a trailing remainder is parsed whole at end of
stream, so Content events can still follow the sentinel. -/
theorem c2_amended (d : List Char → Option RespBody)
    (ls1 ls2 : List (List Char)) (h : ∀ l ∈ ls1, l ≠ doneLine) :
    processLines d (ls1 ++ doneLine :: ls2) =
      ((processLines d ls1).1, some ls2) := by
  induction ls1 with
  | nil => rfl
  | cons l ls1 ih =>
      have hl : l ≠ doneLine := h l (List.mem_cons_self l ls1)
      have hls : ∀ x ∈ ls1, x ≠ doneLine :=
        fun x hx => h x (List.mem_cons_of_mem l hx)
      by_cases h1 : l.take 6 = dataTag
      · have h2 : ¬ l.drop 6 = doneLit := by
          intro hh
          have h3 := List.take_append_drop 6 l
          rw [h1, hh] at h3
          exact absurd h3.symm hl
        simp [processLines, h1, h2, ih hls]
      · simp [processLines, h1, ih hls]

/-- Witness for `c2_amended`: one good frame before the sentinel, one after;
only the one before contributes, the one after is retained unconsumed. -/
theorem c2_amended_witness :
    (∀ l ∈ [goodLine], l ≠ doneLine) ∧
    processLines decodeFix ([goodLine] ++ doneLine :: [goodLine]) =
      ((processLines decodeFix [goodLine]).1, some [goodLine]) :=
  ⟨by decide, c2_amended decodeFix [goodLine] [goodLine] (by decide)⟩

/-- Claim C4: a frame whose payload fails JSON decoding is dropped and
parsing continues: inserting a corrupt newline-terminated `data: ` frame
anywhere after a prefix that left the buffer empty (and that did not
terminate the stream) leaves the entire emitted event sequence unchanged —
no error is raised and the surrounding good stream is unaffected. -/
theorem c4_corrupt_frame_dropped (d : List Char → Option RespBody)
    (pre post : List (List Char)) (p : List Char)
    (hnl : '\n' ∉ p) (hdone : ¬ p = doneLit) (hdec : d p = none)
    (hbuf : (feedAll d [] pre).2 = []) :
    runStream d (pre ++ (dataTag ++ p ++ ['\n']) :: post) =
      runStream d (pre ++ post) := by
  have hnl2 : '\n' ∉ dataTag ++ p := by
    intro hm
    rcases List.mem_append.mp hm with hm1 | hm2
    · exact absurd hm1 (by decide)
    · exact hnl hm2
  have hs : splitNewlines (dataTag ++ (p ++ ['\n'])) =
      ([dataTag ++ p], []) := by
    have h2 := splitNewlines_append (dataTag ++ p) [] hnl2
    simpa [splitNewlines, List.append_assoc] using h2
  have ht : (dataTag ++ p).take 6 = dataTag := by
    have h6 : dataTag.length = 6 := rfl
    rw [← h6, List.take_left]
  have hd : (dataTag ++ p).drop 6 = p := by
    have h6 : dataTag.length = 6 := rfl
    rw [← h6, List.drop_left]
  have hmid : feedChunk d [] (dataTag ++ (p ++ ['\n'])) = ([], []) := by
    simp [feedChunk, hs, processLines, ht, hd, hdone, frameEvents, hdec]
  simp [runStream, feedAll_append, hbuf, feedAll, List.append_assoc, hmid]

/-- Witness for `c4_corrupt_frame_dropped`: a good frame, then a corrupt
frame with payload `oops`, evaluated against the fixture decoder. -/
theorem c4_witness :
    ('\n' ∉ "oops".data ∧ ¬ "oops".data = doneLit ∧
     decodeFix "oops".data = none ∧
     (feedAll decodeFix [] [goodLine ++ ['\n']]).2 = []) ∧
    runStream decodeFix
        ([goodLine ++ ['\n']] ++ (dataTag ++ "oops".data ++ ['\n']) :: []) =
      runStream decodeFix ([goodLine ++ ['\n']] ++ []) :=
  ⟨⟨by decide, by decide, by decide, by decide⟩,
   c4_corrupt_frame_dropped decodeFix [goodLine ++ ['\n']] [] "oops".data
     (by decide) (by decide) (by decide) (by decide)⟩

/-- Claim C5, counterexample: a fully drained stream whose line-wise parsing
produced zero content fragments, but whose bytes all ended in newlines,
leaves an empty residual buffer, and the whole-document parse is not
attempted: the fallback is gated on a non-empty residual buffer, not on the
zero-fragment condition the claim states. -/
theorem c5_counterexample :
    (feedAll decodeFix [] [nonFrameChunk]).1 = [] ∧
    fallbackAttempted decodeFix [nonFrameChunk] = false :=
  ⟨rfl, rfl⟩

/-- Claim C5, amended: the end-of-stream whole-document parse is attempted
exactly when the residual unframed buffer is non-empty, independently of how
many fragments line-wise parsing produced; in particular, on a stream of
newline-terminated lines the fallback never fires, whether or not fragments
were produced. -/
theorem c5_amended (d : List Char → Option RespBody)
    (ls : List (List Char)) (h : ∀ l ∈ ls, '\n' ∉ l) :
    fallbackAttempted d (ls.map fun l => l ++ ['\n']) = false := by
  have hb := feedAll_lines_empty d ls h
  simp [fallbackAttempted, hb]

/-- Witness for `c5_amended`: a stream of one good frame line and the
sentinel line, each newline-terminated; the fallback does not fire even
though a fragment was produced. -/
theorem c5_amended_witness :
    (∀ l ∈ [goodLine, doneLine], '\n' ∉ l) ∧
    fallbackAttempted decodeFix
      ([goodLine, doneLine].map fun l => l ++ ['\n']) = false :=
  ⟨by decide, c5_amended decodeFix [goodLine, doneLine] (by decide)⟩

/-- Claim C1, counterexample: a response whose decoded document populates no
content location (the empty JSON object) makes `createMessage` yield a text
chunk holding the empty string and terminate successfully, and makes
`completePrompt` return the empty string: both report success with an empty
answer instead of failing with a no-content error. -/
theorem c1_counterexample :
    createMessage (TransportResult.ok emptyBody) =
      Except.ok [ApiChunk.text ""] ∧
    completePrompt (TransportResult.ok emptyBody) = Except.ok "" :=
  ⟨rfl, rfl⟩

/-- Claim C1, amended: when no content location of the response is populated,
`createMessage` and `completePrompt` of `deepseek.ts` report success with an
empty answer (an empty text chunk, respectively the empty string); only the
`part_000` variant terminates the request with a no-content failure. -/
theorem c1_amended (b : RespBody)
    (h1 : extractContent b = "") (h2 : usageOf b = none)
    (decode : List Char → Option RespBody) (buf : List Char)
    (h3 : decode buf = some b) (h4 : part000Content? b = none)
    (h5 : b.error = none) :
    createMessage (TransportResult.ok b) = Except.ok [ApiChunk.text ""] ∧
    completePrompt (TransportResult.ok b) = Except.ok "" ∧
    part000CreateMessage decode buf = Except.error Part000Error.noContent := by
  refine ⟨?_, ?_, ?_⟩
  · simp [createMessage, h1, h2]
  · simp [completePrompt, h1]
  · simp [part000CreateMessage, h3, h4, h5]

/-- Witness for `c1_amended` at the empty JSON object. -/
theorem c1_amended_witness :
    (extractContent emptyBody = "" ∧ usageOf emptyBody = none ∧
     decodeEmpty jsonEmptyObj = some emptyBody ∧
     part000Content? emptyBody = none ∧ emptyBody.error = none) ∧
    (createMessage (TransportResult.ok emptyBody) =
        Except.ok [ApiChunk.text ""] ∧
     completePrompt (TransportResult.ok emptyBody) = Except.ok "" ∧
     part000CreateMessage decodeEmpty jsonEmptyObj =
        Except.error Part000Error.noContent) :=
  ⟨⟨rfl, rfl, rfl, rfl, rfl⟩,
   c1_amended emptyBody rfl rfl decodeEmpty jsonEmptyObj rfl rfl rfl⟩

/-- Claim C3, counterexample: on a document whose `choices[0].delta.content`
is `"A"` and whose `choices[0].text` is `"B"`, the extraction order the claim
states (delta first) produces `"A"`, but the code (`extractContent`,
`deepseek.ts` lines 174-179) produces `"B"`: the code never consults
`delta.content` and its order is `message.content`, `text`, `result`,
`output[0].content`. -/
theorem c3_counterexample :
    specExtractContent deltaTextDoc = some "A" ∧
    extractContent deltaTextDoc = "B" :=
  ⟨rfl, rfl⟩

/-- Claim C3, amended: extraction tries `choices[0].message.content`, then
`choices[0].text`, then `result`, then `output[0].content`, in that order;
the first present (non-nullish) value wins even when it is the empty string;
`delta.content` is never consulted; and a document with none populated yields
the empty string rather than no fragment. -/
theorem c3_amended :
    (∀ (b : RespBody) (c : Choice) (m : MessageObj) (s : String),
        b.choices.head? = some c → c.message = some m → m.content = some s →
        extractContent b = s) ∧
    (∀ (b : RespBody) (c : Choice) (s : String),
        b.choices.head? = some c →
        (c.message.bind fun m => m.content) = none →
        c.text = some s → extractContent b = s) ∧
    (∀ (b : RespBody) (c : Choice) (s : String),
        b.choices.head? = some c →
        (c.message.bind fun m => m.content) = none → c.text = none →
        b.result = some s → extractContent b = s) ∧
    (∀ (b : RespBody) (c : Choice),
        b.choices.head? = some c →
        (c.message.bind fun m => m.content) = none → c.text = none →
        b.result = none →
        extractContent b = (b.output.head?.bind fun o => o.content).getD "") ∧
    (∀ (c : Choice) (tl : List Choice) (res : Option String)
        (out : List OutputItem) (u mt : Option UsageObj) (e : Option ErrorObj)
        (d1 d2 : Option Delta),
        extractContent { choices := { c with delta := d1 } :: tl, result := res,
                         output := out, usage := u, metrics := mt, error := e } =
        extractContent { choices := { c with delta := d2 } :: tl, result := res,
                         output := out, usage := u, metrics := mt, error := e }) := by
  refine ⟨?_, ?_, ?_, ?_, ?_⟩
  · intro b c m s hb hm hs; simp [extractContent, hb, hm, hs]
  · intro b c s hb hm ht; simp [extractContent, hb, hm, ht]
  · intro b c s hb hm ht hr; simp [extractContent, hb, hm, ht, hr]
  · intro b c hb hm ht hr; simp [extractContent, hb, hm, ht, hr]
  · intro c tl res out u mt e d1 d2; rfl

/-- Witness for `c3_amended`: the first conjunct applied to the fixture
document whose `choices[0].message.content` is `"hi"`. -/
theorem c3_amended_witness :
    (contentAndErrorDoc.choices.head? =
        some { message := some { content := some "hi" } } ∧
     ({ message := some { content := some "hi" } } : Choice).message =
        some { content := some "hi" } ∧
     ({ content := some "hi" } : MessageObj).content = some "hi") ∧
    extractContent contentAndErrorDoc = "hi" :=
  ⟨⟨rfl, rfl, rfl⟩,
   c3_amended.1 contentAndErrorDoc { message := some { content := some "hi" } }
     { content := some "hi" } "hi" rfl rfl rfl⟩

/-- Claim C7: for every request, the event sequence of `createMessage`
decomposes as content events, then at most one usage event, then exactly one
terminal (`done` on normal completion, `error` on a thrown failure): no usage
event precedes a content event, at most one usage event is emitted, and
exactly one terminal condition is produced. -/
theorem c7_event_ordering (r : TransportResult) :
    ∃ (cs us : List StreamEvent) (t : StreamEvent),
      createMessageTrace r = cs ++ us ++ [t] ∧
      (∀ e ∈ cs, isContent e = true) ∧
      (∀ e ∈ us, isUsage e = true) ∧
      us.length ≤ 1 ∧
      isTerminal t = true ∧
      (createMessageTrace r).countP (fun e => isTerminal e) = 1 := by
  cases r with
  | err m =>
      refine ⟨[], [], StreamEvent.error m, ?_, ?_, ?_, ?_, ?_, ?_⟩ <;>
        simp [createMessageTrace, createMessage, isTerminal]
  | ok b =>
      cases h : usageOf b with
      | none =>
          refine ⟨[StreamEvent.content (extractContent b)], [],
            StreamEvent.done, ?_, ?_, ?_, ?_, ?_, ?_⟩ <;>
            simp [createMessageTrace, createMessage, h, isContent, isTerminal]
      | some u =>
          refine ⟨[StreamEvent.content (extractContent b)],
            [StreamEvent.usage (processUsageMetrics u)],
            StreamEvent.done, ?_, ?_, ?_, ?_, ?_, ?_⟩ <;>
            simp [createMessageTrace, createMessage, h, isContent, isUsage,
              isTerminal]

/-- Claim C8, counterexample: on a response whose decoded document carries
both a populated `choices[0].message.content` and an explicit
`error.message`, the `part_000` variant emits the content chunk and reports
success: the explicit provider error does not short-circuit to an error and
the content is not suppressed. -/
theorem c8_counterexample :
    contentAndErrorDoc.error = some { message := some "bad key" } ∧
    part000CreateMessage decodeErr jsonContentAndError =
      Except.ok [ApiChunk.text "hi"] :=
  ⟨rfl, rfl⟩

/-- Claim C8, amended: the `part_000` variant checks content first: a truthy
`choices[0].message.content` yields that content and returns even when
`error.message` is present; only when no content is extracted does a truthy
`error.message` produce the provider-message error; and `deepseek.ts` never
short-circuits on `error.message` at all — every 2xx body yields a
successful chunk list. -/
theorem c8_amended :
    (∀ (decode : List Char → Option RespBody) (buf : List Char)
        (b : RespBody) (s : String),
        decode buf = some b → part000Content? b = some s →
        part000CreateMessage decode buf = Except.ok [ApiChunk.text s]) ∧
    (∀ (decode : List Char → Option RespBody) (buf : List Char)
        (b : RespBody) (m : String),
        decode buf = some b → part000Content? b = none →
        (b.error.bind fun e => e.message) = some m → ¬ m = "" →
        part000CreateMessage decode buf =
          Except.error (Part000Error.apiError m)) ∧
    (∀ b : RespBody, ∃ l : List ApiChunk,
        createMessage (TransportResult.ok b) = Except.ok l) := by
  refine ⟨?_, ?_, ?_⟩
  · intro decode buf b s h1 h2; simp [part000CreateMessage, h1, h2]
  · intro decode buf b m h1 h2 h3 h4; simp [part000CreateMessage, h1, h2, h3, h4]
  · intro b; exact ⟨_, rfl⟩

/-- Witness for `c8_amended`: the second conjunct applied to spec Scenario E,
the body `{"error":{"message":"bad key"}}`. -/
theorem c8_amended_witness :
    (decodeErr jsonErrorOnly = some errorOnlyDoc ∧
     part000Content? errorOnlyDoc = none ∧
     (errorOnlyDoc.error.bind fun e => e.message) = some "bad key" ∧
     ¬ "bad key" = "") ∧
    part000CreateMessage decodeErr jsonErrorOnly =
      Except.error (Part000Error.apiError "bad key") :=
  ⟨⟨rfl, rfl, rfl, by decide⟩,
   c8_amended.2.1 decodeErr jsonErrorOnly errorOnlyDoc "bad key" rfl rfl rfl
     (by decide)⟩

/-- Claim C9, counterexample: the claim quantifies over every usage
normalization it cites, but `OpenAiHandler.processUsageMetrics` of
`part_001` does not accept the synonymous spellings: a usage object spelled
`{input_tokens: 5}` normalizes to `inputTokens = 0` there, while the
`prompt_tokens` spelling normalizes to 5 — different summaries for
synonymous spellings of the same count. -/
theorem c9_counterexample :
    (openAiProcessUsageMetrics { input_tokens := some 5 }).inputTokens = 0 ∧
    (openAiProcessUsageMetrics { prompt_tokens := some 5 }).inputTokens = 5 ∧
    openAiProcessUsageMetrics { input_tokens := some 5 } ≠
      openAiProcessUsageMetrics { prompt_tokens := some 5 } :=
  ⟨rfl, rfl, by decide⟩

/-- Claim C9, amended: the `deepseek.ts` normalizer
(`DeepSeekHandler.processUsageMetrics`) accepts both synonymous spellings of
every field — `prompt_tokens`/`input_tokens`, `completion_tokens`/
`output_tokens`, `prompt_tokens_details.cache_miss_tokens`/
`cache_creation_input_tokens`, `prompt_tokens_details.cached_tokens`/
`cache_read_input_tokens` — producing the same normalized summary whichever
spelling the provider used; the `part_001` normalizer
(`OpenAiHandler.processUsageMetrics`) reads only `prompt_tokens`,
`completion_tokens` and the single cache spellings, so the synonymous
`input_tokens`/`output_tokens` spellings and the nested
`prompt_tokens_details` counters normalize to zero respectively nothing
there. -/
theorem c9_amended (v : Nat) :
    ((openAiProcessUsageMetrics { input_tokens := some v }).inputTokens = 0 ∧
     (openAiProcessUsageMetrics { prompt_tokens := some v }).inputTokens = v ∧
     (openAiProcessUsageMetrics { output_tokens := some v }).outputTokens = 0 ∧
     (openAiProcessUsageMetrics
        { completion_tokens := some v }).outputTokens = v ∧
     (openAiProcessUsageMetrics
        { prompt_tokens_details :=
            some { cache_miss_tokens := some v } }).cacheWriteTokens = none ∧
     (openAiProcessUsageMetrics
        { prompt_tokens_details :=
            some { cached_tokens := some v } }).cacheReadTokens = none) ∧
    processUsageMetrics { prompt_tokens := some v } =
      processUsageMetrics { input_tokens := some v } ∧
    (processUsageMetrics { prompt_tokens := some v }).inputTokens = v ∧
    processUsageMetrics { completion_tokens := some v } =
      processUsageMetrics { output_tokens := some v } ∧
    (processUsageMetrics { completion_tokens := some v }).outputTokens = v ∧
    processUsageMetrics
        { prompt_tokens_details := some { cache_miss_tokens := some v } } =
      processUsageMetrics { cache_creation_input_tokens := some v } ∧
    (processUsageMetrics
        { cache_creation_input_tokens := some v }).cacheWriteTokens = some v ∧
    processUsageMetrics
        { prompt_tokens_details := some { cached_tokens := some v } } =
      processUsageMetrics { cache_read_input_tokens := some v } ∧
    (processUsageMetrics
        { cache_read_input_tokens := some v }).cacheReadTokens = some v :=
  ⟨⟨rfl, rfl, rfl, rfl, rfl, rfl⟩, rfl, rfl, rfl, rfl, rfl, rfl, rfl, rfl⟩

/-- Claim C10, counterexample: with the CA bundle option set to the empty
string, the resolved path is falsy, the existence check is skipped entirely,
and construction succeeds without installing any trust configuration even
though no file exists anywhere (the filesystem oracle is constantly false):
construction does not always throw when the configured file is missing. -/
theorem c10_counterexample :
    constructDeepSeekHandler (fun _ => false)
        { deepSeekCaBundlePath := some "" } =
      Except.ok { caBundlePath := "", baseUrl := DEFAULT_URL,
                  modelId := DEFAULT_MODEL, nodeExtraCaCerts := none } :=
  rfl

/-- Claim C10, amended: for every non-empty resolved CA bundle path
(including the built-in default), construction throws exactly when the file
does not exist, and when it exists construction succeeds and installs the
path as trust configuration; only the degenerate empty-string override skips
the check. -/
theorem c10_amended (fsExists : String → Bool) (o : HandlerOptions)
    (h : ¬ resolveCaPath o = "") :
    (fsExists (resolveCaPath o) = false →
      constructDeepSeekHandler fsExists o =
        Except.error ("CA bundle not found at " ++ resolveCaPath o)) ∧
    (fsExists (resolveCaPath o) = true →
      constructDeepSeekHandler fsExists o =
        Except.ok { caBundlePath := resolveCaPath o,
                    baseUrl := ((o.deepSeekBaseUrl) <|>
                      (o.deepseekBaseUrl)).getD DEFAULT_URL,
                    modelId := (o.apiModelId).getD DEFAULT_MODEL,
                    nodeExtraCaCerts := some (resolveCaPath o) }) := by
  constructor <;> intro hf <;> simp [constructDeepSeekHandler, h, hf]

/-- Witness for `c10_amended`: default options resolve to the built-in
default path; on a filesystem where exactly that file exists, construction
succeeds and installs it. -/
theorem c10_amended_witness :
    (¬ resolveCaPath {} = "" ∧
     (fun s => s == DEFAULT_CA_BUNDLE_PATH) (resolveCaPath {}) = true) ∧
    constructDeepSeekHandler (fun s => s == DEFAULT_CA_BUNDLE_PATH) {} =
      Except.ok { caBundlePath := resolveCaPath {},
                  baseUrl := DEFAULT_URL, modelId := DEFAULT_MODEL,
                  nodeExtraCaCerts := some (resolveCaPath {}) } :=
  ⟨⟨by decide, by decide⟩,
   (c10_amended (fun s => s == DEFAULT_CA_BUNDLE_PATH) {} (by decide)).2
     (by decide)⟩

/-- Merging runs preserves the role of the leading turn. -/
theorem mergeRuns_head_role (l : List RMsg) :
    (mergeRuns l).head?.map (fun m => m.role) =
      l.head?.map (fun m => m.role) := by
  cases l with
  | nil => rfl
  | cons m ms =>
      cases hm : mergeRuns ms with
      | nil => simp [mergeRuns, hm]
      | cons m2 rest =>
          by_cases hr : m.role = m2.role <;> simp [mergeRuns, hm, hr]

/-- After merging runs, adjacent messages always carry different roles. -/
theorem mergeRuns_chain (l : List RMsg) :
    List.Chain' (fun a b => a.role ≠ b.role) (mergeRuns l) := by
  induction l with
  | nil => simp [mergeRuns]
  | cons m ms ih =>
      cases hm : mergeRuns ms with
      | nil => simp [mergeRuns, hm]
      | cons m2 rest =>
          rw [hm] at ih
          by_cases hr : m.role = m2.role
          · have hgoal : mergeRuns (m :: ms) =
                { role := m.role, content := m.content ++ "\n" ++ m2.content } ::
                  rest := by
              simp [mergeRuns, hm, hr]
            rw [hgoal]
            rw [List.chain'_cons'] at ih ⊢
            exact ⟨fun y hy => by simpa [hr] using ih.1 y hy, ih.2⟩
          · have hgoal : mergeRuns (m :: ms) = m :: m2 :: rest := by
              simp [mergeRuns, hm, hr]
            rw [hgoal]
            exact List.chain'_cons.mpr ⟨hr, ih⟩

/-- Every run produced by `roleRuns` is non-empty. -/
theorem roleRuns_ne_nil (l : List RMsg) : ∀ run ∈ roleRuns l, run ≠ [] := by
  induction l with
  | nil => intro run h; simp [roleRuns] at h
  | cons m ms ih =>
      intro run hrun
      rcases hm : roleRuns ms with _ | ⟨r, rest⟩
      · simp only [roleRuns, hm] at hrun
        simp at hrun
        simp [hrun]
      · simp only [roleRuns, hm] at hrun
        rcases r with _ | ⟨m2, rtl⟩
        · simp at hrun
          rcases hrun with h1 | h1
          · simp [h1]
          · exact ih run (by rw [hm]; exact List.mem_cons_of_mem _ h1)
        · by_cases hr : m.role = m2.role
          · simp [hr] at hrun
            rcases hrun with h1 | h1
            · simp [h1]
            · exact ih run (by rw [hm]; exact List.mem_cons_of_mem _ h1)
          · simp [hr] at hrun
            rcases hrun with h1 | h1 | h1
            · simp [h1]
            · simp [h1]
            · exact ih run (by rw [hm]; exact List.mem_cons_of_mem _ h1)

/-- Merging runs is exactly: group the history into maximal same-role runs
and replace each run by one message holding the newline-joined contents. -/
theorem mergeRuns_eq_runs (l : List RMsg) :
    mergeRuns l = (roleRuns l).map mergeRun := by
  induction l with
  | nil => rfl
  | cons m ms ih =>
      rcases hm : roleRuns ms with _ | ⟨run, rest⟩
      · have h0 : mergeRuns ms = [] := by rw [ih, hm]; rfl
        simp only [mergeRuns, h0, roleRuns, hm]
        simp [mergeRun, nlJoin]
      · rcases run with _ | ⟨m2, rtl⟩
        · have hmem : ([] : List RMsg) ∈ roleRuns ms := by
            rw [hm]; exact List.mem_cons_self _ _
          exact absurd rfl (roleRuns_ne_nil ms [] hmem)
        · have h0 : mergeRuns ms = mergeRun (m2 :: rtl) :: rest.map mergeRun := by
            rw [ih, hm]; rfl
          by_cases hr : m.role = m2.role
          · simp only [mergeRuns, h0, roleRuns, hm]
            simp [mergeRun, nlJoin, hr]
          · simp only [mergeRuns, h0, roleRuns, hm]
            simp [mergeRun, nlJoin, hr]

/-- Claim C6: for every history with at least one pair of consecutive
same-role turns, R1-mode formatting (`convertToR1Format` applied after
prepending a user-role message carrying the system prompt) produces a
message list whose roles strictly alternate beginning with `user`, and whose
messages are exactly the maximal same-role runs of the input, each merged by
concatenating its contents with single newline separators — so the total
character content of the input turns is preserved with no truncation.
The formatter is modelled from the spec because `r1-format.ts` is not among
the provided sources. -/
theorem c6_r1_alternation (sys : String) (hist : List RMsg)
    (_hdup : ∃ pre m1 m2 suf, hist = pre ++ m1 :: m2 :: suf ∧
      m1.role = m2.role) :
    List.Chain' (fun a b => a.role ≠ b.role)
      (convertToR1Format ({ role := Role.user, content := sys } :: hist)) ∧
    (convertToR1Format
        ({ role := Role.user, content := sys } :: hist)).head?.map
      (fun m => m.role) = some Role.user ∧
    convertToR1Format ({ role := Role.user, content := sys } :: hist) =
      (roleRuns ({ role := Role.user, content := sys } :: hist)).map
        mergeRun := by
  have hhead : (mergeRuns
      ({ role := Role.user, content := sys } :: hist)).head?.map
        (fun m => m.role) = some Role.user := by
    rw [mergeRuns_head_role]; rfl
  have hconv : convertToR1Format
        ({ role := Role.user, content := sys } :: hist) =
      mergeRuns ({ role := Role.user, content := sys } :: hist) := by
    rcases hm : mergeRuns ({ role := Role.user, content := sys } :: hist) with
      _ | ⟨m0, rest⟩
    · rw [hm] at hhead; simp at hhead
    · rw [hm] at hhead
      simp at hhead
      simp [convertToR1Format, hm, hhead]
  refine ⟨?_, ?_, ?_⟩
  · rw [hconv]; exact mergeRuns_chain _
  · rw [hconv]; exact hhead
  · rw [hconv]; exact mergeRuns_eq_runs _

/-- Witness for `c6_r1_alternation`: system prompt `S` and a history of two
consecutive user turns `a`, `b`; the formatter merges all three into one
user message `S\na\nb`. -/
theorem c6_witness :
    (∃ pre m1 m2 suf,
        [({ role := Role.user, content := "a" } : RMsg),
         { role := Role.user, content := "b" }] = pre ++ m1 :: m2 :: suf ∧
        m1.role = m2.role) ∧
    convertToR1Format
        ({ role := Role.user, content := "S" } ::
          [{ role := Role.user, content := "a" },
           { role := Role.user, content := "b" }]) =
      (roleRuns
        ({ role := Role.user, content := "S" } ::
          [{ role := Role.user, content := "a" },
           { role := Role.user, content := "b" }])).map mergeRun ∧
    convertToR1Format
        ({ role := Role.user, content := "S" } ::
          [{ role := Role.user, content := "a" },
           { role := Role.user, content := "b" }]) =
      [{ role := Role.user, content := "S\na\nb" }] :=
  ⟨⟨[], { role := Role.user, content := "a" },
      { role := Role.user, content := "b" }, [], rfl, rfl⟩,
   (c6_r1_alternation "S"
      [{ role := Role.user, content := "a" },
       { role := Role.user, content := "b" }]
      ⟨[], { role := Role.user, content := "a" },
        { role := Role.user, content := "b" }, [], rfl, rfl⟩).2.2,
   rfl⟩

end RooDeepSeek
